import Mathlib

set_option maxRecDepth 8000

/-!
Verification of the Novatel OEM4 GPS driver (`src/lib/NovatelOEM4.py`).

The development shallowly embeds the protocol engine of the driver:
the CRC engine (`Gps.CRC32Value`), the 28-byte header codec
(`Gps.create_header` and the unpack performed in `Gps.parseResponces`),
the per-command frame encoders (`Gps.sendUnlogall`, `Gps.setCom`,
`Gps.askLog`, `Gps.setDynamics`, `Gps.reset`, `Gps.saveconfig`,
`Gps.sbascontrol`), the byte-at-a-time frame scanner and message
dispatcher of the reader thread (`Gps.parseResponces`), and the
session-level command calls together with `Gps.begin`.

Bytes are modelled as `Nat` values below 256; byte strings as `List Nat`.
Machine integers are `Nat`/`Int` with explicit `% 2^w` where it matters.
The two IEEE-754 double fields of the LOG command body and the float
fields of the BESTXYZ telemetry body are kept as raw little-endian byte
vectors: the driver never computes with them, it only moves them.
-/

namespace Novatel

/-- Little-endian byte pair of a 16-bit value, as produced by struct.pack code H. -/
def toLE2 (v : Nat) : List Nat := [v % 256, v / 256 % 256]

/-- Little-endian byte quadruple of a 32-bit value, struct.pack codes I and L. -/
def toLE4 (v : Nat) : List Nat :=
  [v % 256, v / 256 % 256, v / 65536 % 256, v / 16777216 % 256]

/-- Little-endian two's-complement bytes of a signed 32-bit value, struct.pack code l. -/
def toLEi4 (v : Int) : List Nat := toLE4 (v % 4294967296).toNat

/-- Decode two little-endian bytes, struct.unpack code H. -/
def fromLE2 (b0 b1 : Nat) : Nat := b0 + 256 * b1

/-- Decode four little-endian bytes, struct.unpack codes I and L. -/
def fromLE4 (b0 b1 b2 b3 : Nat) : Nat :=
  b0 + 256 * b1 + 65536 * b2 + 16777216 * b3

/-- Decode the first four bytes of a list as an unsigned little-endian 32-bit value. -/
def fromLE4l (bs : List Nat) : Nat :=
  fromLE4 (bs.getD 0 0) (bs.getD 1 0) (bs.getD 2 0) (bs.getD 3 0)

/-- Decode four little-endian bytes as a signed 32-bit value, struct.unpack code l. -/
def fromLEi4 (b0 b1 b2 b3 : Nat) : Int :=
  let u := fromLE4 b0 b1 b2 b3
  if u < 2147483648 then (u : Int) else (u : Int) - 4294967296

/-- One bit-step of the reflected CRC-32: shift right and, when the dropped bit was
set, xor with the reversed polynomial 0xEDB88320 (the bit reversal of 0x04C11DB7). -/
def crcStep (c : Nat) : Nat :=
  if c % 2 = 1 then (c / 2) ^^^ 0xEDB88320 else c / 2

/-- Process one message byte of the reflected CRC-32: xor the byte into the low
bits of the running value and apply eight bit-steps. -/
def crcByte (c b : Nat) : Nat :=
  crcStep (crcStep (crcStep (crcStep (crcStep (crcStep (crcStep (crcStep (c ^^^ b))))))))

/-- Embeds `Gps.CRC32Value` (NovatelOEM4.py lines 116-130): the checksum function
built by `crcmod.mkCrcFun(0x104C11DB7, 0, True, 0)`, i.e. the reflected CRC-32
with zero initial value and zero xor-out, folded over the message bytes. -/
def CRC32Value (msg : List Nat) : Nat := msg.foldl crcByte 0

/-- The 14 fields of `Gps.header_keys`, with the 3-byte sync vector split into its
bytes and the wire layout of `struct.pack('<BBBBHBBHHBBHlLHH', ...)`:
sync[3], headerLength (1 byte), messageID (2), messageType (1), portAddress (1),
messageLength (2, body length excluding the CRC), sequence (2), idleTime (1),
timeStatus (1), week (2), ms (signed 4), receiverStatus (4), reserved (2),
swVersion (2). -/
@[ext]
structure Header where
  sync0 : Nat
  sync1 : Nat
  sync2 : Nat
  headerLength : Nat
  messageID : Nat
  messageType : Nat
  portAddress : Nat
  messageLength : Nat
  sequence : Nat
  idleTime : Nat
  timeStatus : Nat
  week : Nat
  ms : Int
  receiverStatus : Nat
  reserved : Nat
  swVersion : Nat
deriving DecidableEq, Repr

/-- Field ranges under which every header field fits its struct.pack format code. -/
def ValidHeader (h : Header) : Prop :=
  h.sync0 < 256 ∧ h.sync1 < 256 ∧ h.sync2 < 256 ∧ h.headerLength < 256 ∧
  h.messageID < 65536 ∧ h.messageType < 256 ∧ h.portAddress < 256 ∧
  h.messageLength < 65536 ∧ h.sequence < 65536 ∧ h.idleTime < 256 ∧
  h.timeStatus < 256 ∧ h.week < 65536 ∧
  -2147483648 ≤ h.ms ∧ h.ms < 2147483648 ∧
  h.receiverStatus < 4294967296 ∧ h.reserved < 65536 ∧ h.swVersion < 65536

instance (h : Header) : Decidable (ValidHeader h) := by
  unfold ValidHeader; exact inferInstance

/-- The header starts with the fixed sync vector 0xAA 0x44 0x12. -/
def hasSync (h : Header) : Prop := h.sync0 = 0xAA ∧ h.sync1 = 0x44 ∧ h.sync2 = 0x12

instance (h : Header) : Decidable (hasSync h) := by
  unfold hasSync; exact inferInstance

/-- Embeds `Gps.create_header` (lines 384-465): sync bytes 0xAA 0x44 0x12, header
length 0x1C, the given message identifier, message type 0x02, the given port
address and body length, and zeros for the remaining eight fields. The source
defaults `portAddress` to 192; callers here pass 192 explicitly. -/
def create_header (messageID messageLength portAddress : Nat) : Header :=
  ⟨0xAA, 0x44, 0x12, 0x1C, messageID, 0x02, portAddress, messageLength,
   0, 0, 0, 0, 0, 0, 0, 0⟩

/-- Bytes 3..27 of a packed header: struct.pack format `<BHBBHHBBHlLHH` of the 13
fields after the sync vector. -/
def packTail (h : Header) : List Nat :=
  [h.headerLength] ++ toLE2 h.messageID ++ [h.messageType, h.portAddress]
    ++ toLE2 h.messageLength ++ toLE2 h.sequence ++ [h.idleTime, h.timeStatus]
    ++ toLE2 h.week ++ toLEi4 h.ms ++ toLE4 h.receiverStatus
    ++ toLE2 h.reserved ++ toLE2 h.swVersion

/-- Header encoding: `struct.pack('<BBBBHBBHHBBHlLHH', *header)` as used by every
command sender; 28 bytes. -/
def packHeader (h : Header) : List Nat :=
  [h.sync0, h.sync1, h.sync2] ++ packTail h

/-- Embeds the header unpack of `Gps.parseResponces` (lines 179-183):
`struct.unpack('<BHBBHHBBHlLHH', serialBuffer)` over the 25 bytes following a
matched sync vector, zipped with `header_keys`. A list that does not have
exactly 25 elements would make `struct.unpack` raise; that case returns a
zeroed header and is never reached by the scanner. -/
def unpackHeader25 (s0 s1 s2 : Nat) (bs : List Nat) : Header :=
  match bs with
  | [hl, m0, m1, mt, pa, l0, l1, q0, q1, it, ts, w0, w1,
     a0, a1, a2, a3, r0, r1, r2, r3, v0, v1, v2, v3] =>
    ⟨s0, s1, s2, hl, fromLE2 m0 m1, mt, pa, fromLE2 l0 l1, fromLE2 q0 q1, it, ts,
     fromLE2 w0 w1, fromLEi4 a0 a1 a2 a3, fromLE4 r0 r1 r2 r3, fromLE2 v0 v1,
     fromLE2 v2 v3⟩
  | _ => ⟨s0, s1, s2, 0, 0, 0, 0, 0, 0, 0, 0, 0, 0, 0, 0, 0⟩

/-- The header codec's decode direction: 28 bytes are a frame start exactly when
the first three bytes equal the fixed sync vector, in which case the remaining
25 bytes are unpacked as in `Gps.parseResponces`; no other field is checked. -/
def decodeHeader (bs : List Nat) : Option Header :=
  if bs.length = 28 ∧ bs.getD 0 0 = 0xAA ∧ bs.getD 1 0 = 0x44 ∧ bs.getD 2 0 = 0x12 then
    some (unpackHeader25 (bs.getD 0 0) (bs.getD 1 0) (bs.getD 2 0) (bs.drop 3))
  else none

/-- Python runtime errors raised by the command senders. -/
inductive PyError where
  | typeErrorDictNotCallable
  | keyError
  | indexError
deriving DecidableEq, Repr

/-- Embeds the `Gps.MessageID` dict (lines 92-101), as subscripted with
`self.MessageID[key]`; a missing key would raise `KeyError` (`none`). -/
def MessageID (k : String) : Option Nat :=
  if k = "LOG" then some 1
  else if k = "COM" then some 4
  else if k = "RESET" then some 18
  else if k = "SAVECONFIG" then some 19
  else if k = "UNLOG" then some 36
  else if k = "UNLOGALL" then some 38
  else if k = "DATUM" then some 160
  else if k = "DYNAMICS" then some 258
  else if k = "BESTXYZ" then some 241
  else if k = "SBASCONTROL" then some 652
  else none

/-- Embeds the expression `self.MessageID('KEY')` written in `Gps.reset` (line 976),
`Gps.saveconfig` (line 1028) and `Gps.sbascontrol` (line 1134): it applies the
`MessageID` dict as if it were a function. A Python dict is not callable, so the
expression raises `TypeError` for every key, before any frame byte is built. -/
def messageIDCalled (_k : String) : Except PyError Nat :=
  Except.error PyError.typeErrorDictNotCallable

/-- Embeds the frame built by `Gps.sendUnlogall` (lines 493-508): header with
message identifier 38 and body length 8, body `struct.pack('<LL', port, held)`,
then the CRC-32 of header plus body as the trailing four bytes. -/
def unlogallFrame (port held : Nat) : List Nat :=
  let msg := packHeader (create_header 38 8 192) ++ (toLE4 port ++ toLE4 held)
  msg ++ toLE4 (CRC32Value msg)

/-- Embeds the frame built by `Gps.setCom` (lines 622-630): header with message
identifier 4 and body length 32, body `struct.pack('<8L', ...)` of the eight
serial parameters, then the trailing CRC-32. -/
def setComFrame (port baud parity databits stopbits handshake echo breakCond : Nat) :
    List Nat :=
  let msg := packHeader (create_header 4 32 192)
    ++ (toLE4 port ++ toLE4 baud ++ toLE4 parity ++ toLE4 databits
        ++ toLE4 stopbits ++ toLE4 handshake ++ toLE4 echo ++ toLE4 breakCond)
  msg ++ toLE4 (CRC32Value msg)

/-- Embeds the frame built by `Gps.askLog` (lines 731-739): header with message
identifier 1 and body length 32, body `struct.pack('<LHBBLddL', port, logIdVal,
0, 0, trigger, period, offset, hold)`, then the trailing CRC-32. `logIdVal` is
the value the caller fetched from the `MessageID` dict; `periodB` and `offsetB`
are the 8-byte little-endian IEEE-754 encodings of the two doubles, carried as
opaque byte vectors. -/
def askLogFrame (logIdVal port trigger : Nat) (periodB offsetB : List Nat)
    (hold : Nat) : List Nat :=
  let msg := packHeader (create_header 1 32 192)
    ++ (toLE4 port ++ toLE2 logIdVal ++ [0, 0] ++ toLE4 trigger
        ++ periodB ++ offsetB ++ toLE4 hold)
  msg ++ toLE4 (CRC32Value msg)

/-- Embeds the frame built by `Gps.setDynamics` (lines 820-829): header with
message identifier 258 (`MessageID['DYNAMICS']`) and body length 4, body
`struct.pack('<L', dynamicID)`, then the trailing CRC-32. -/
def setDynamicsFrame (dynamicID : Nat) : List Nat :=
  let msg := packHeader (create_header 258 4 192) ++ toLE4 dynamicID
  msg ++ toLE4 (CRC32Value msg)

/-- Embeds the frame construction of `Gps.reset` (lines 973-981). The message
identifier is fetched with `self.MessageID('RESET')` — a call on the dict — so
the construction raises `TypeError` before assembling any byte; the intended
frame (header with identifier 18 and body length 4, body the delay, trailing
CRC) is the code after the raising expression. -/
def resetEncode (delay : Nat) : Except PyError (List Nat) := do
  let mid ← messageIDCalled "RESET"
  let msg := packHeader (create_header mid 4 192) ++ toLE4 delay
  pure (msg ++ toLE4 (CRC32Value msg))

/-- Embeds the frame construction of `Gps.saveconfig` (lines 1025-1032). It also
writes `self.MessageID('RESET')` — both a dict call, which raises `TypeError`,
and the `RESET` key where the SAVECONFIG identifier 19 was intended. The body is
empty and the declared body length 0. -/
def saveconfigEncode : Except PyError (List Nat) := do
  let mid ← messageIDCalled "RESET"
  let msg := packHeader (create_header mid 0 192)
  pure (msg ++ toLE4 (CRC32Value msg))

/-- Embeds the frame construction of `Gps.sbascontrol` (lines 1131-1140). The
identifier is fetched with `self.MessageID('SBASCONTROL')` — a dict call, which
raises `TypeError` — and `messageSize` is set to 0 even though the body that
follows is the 16-byte `struct.pack('<LLLL', keywordID, systemID, prn, testmode)`. -/
def sbascontrolEncode (keywordID systemID prn testmode : Nat) :
    Except PyError (List Nat) := do
  let mid ← messageIDCalled "SBASCONTROL"
  let msg := packHeader (create_header mid 0 192)
    ++ (toLE4 keywordID ++ toLE4 systemID ++ toLE4 prn ++ toLE4 testmode)
  pure (msg ++ toLE4 (CRC32Value msg))

/-- Tags with which `Gps.parseResponces` labels the orders it puts on the shared
`orders` queue (the `'order'` entry of the queued dict). -/
inductive Tag where
  | LOG
  | UNLOGALL
  | COM
  | DYNAMICS
  | RESET
  | SAVECONFIG
  | SBASCONTROL
deriving DecidableEq, Repr

/-- The command acknowledgement shape decoded by the order branches of
`Gps.parseResponces`: response code (`struct.unpack('<I', ...)`), the ASCII text
of `messageLength - 4` bytes, and the trailing CRC (`struct.unpack('<L', ...)`).
`responseID` holds the unpacked value (the source keeps the 1-tuple and indexes
it with `[0]` on use). -/
structure OrderData where
  responseID : Nat
  ascii : List Nat
  crc32 : Nat
deriving DecidableEq, Repr

/-- The BESTXYZ telemetry record decoded by `Gps.parseResponces` (lines 273-294),
fields and slice offsets exactly as the source's `bestxyz_keys` and
`struct.unpack` calls. Float and double fields are kept as their raw
little-endian byte slices. -/
structure BestXYZ where
  pSolStatus : Nat
  posType : Nat
  position : List Nat
  positionStd : List Nat
  velSolStatus : Nat
  velType : Nat
  velocity : List Nat
  velocityStd : List Nat
  stnID : List Nat
  vLatency : List Nat
  diffAge : List Nat
  solAge : List Nat
  numStasVs : Nat
  numSolSatVs : Nat
  numGGL1 : Nat
  reserved : List Nat
  extSolStat : Nat
  reserved2 : Nat
  sigMask : Nat
  crc32 : Nat
deriving DecidableEq, Repr

/-- Embeds the BESTXYZ body decode (lines 275-293): the given buffer is the
`messageLength`-byte read, sliced at the source's fixed offsets; `crc` is the
value of the separate trailing 4-byte read. -/
def decodeBestXYZ (buf : List Nat) (crc : Nat) : BestXYZ :=
  { pSolStatus := fromLE4l (buf.take 4)
    posType := fromLE4l ((buf.drop 4).take 4)
    position := (buf.drop 8).take 24
    positionStd := (buf.drop 32).take 12
    velSolStatus := fromLE4l ((buf.drop 44).take 4)
    velType := fromLE4l ((buf.drop 48).take 4)
    velocity := (buf.drop 52).take 24
    velocityStd := (buf.drop 76).take 12
    stnID := (buf.drop 88).take 4
    vLatency := (buf.drop 92).take 4
    diffAge := (buf.drop 96).take 4
    solAge := (buf.drop 100).take 4
    numStasVs := buf.getD 104 0
    numSolSatVs := buf.getD 105 0
    numGGL1 := buf.getD 106 0
    reserved := (buf.drop 107).take 2
    extSolStat := buf.getD 109 0
    reserved2 := buf.getD 110 0
    sigMask := buf.getD 111 0
    crc32 := crc }

/-- Observable actions of the reader thread: each `log` call and each queue put
of `Gps.parseResponces`, in program order. `unexpectedByte` is the
`log.debug("New Byte unexpected")` on a first-sync-byte mismatch;
`infoResponse` the `log.info("... response received")` of an order branch;
`putOrder` the `self.orders.put(...)`; `infoDynamicID` the info log of the
non-acknowledgement DYNAMICS body; `putTelemetryNowait` the
`self.dataQueue.put_nowait(outMessage)` carrying the derived `Indice` and
capture-time fields. -/
inductive Ev where
  | unexpectedByte (b : Nat)
  | infoResponse (t : Tag) (ascii : List Nat)
  | putOrder (t : Tag) (d : OrderData)
  | infoDynamicID (d : Nat)
  | putTelemetryNowait (indice : Nat) (time : Nat) (rec : BestXYZ)
deriving DecidableEq, Repr

/-- Embeds the order-shape reads repeated verbatim in each acknowledgement branch
of `Gps.parseResponces` (e.g. lines 185-194): read 4 bytes (response code), read
`messageLength - 4` bytes (ASCII text), read 4 bytes (CRC). `none` models the
reader blocking forever because the stream has too few bytes. -/
def readOrder (msgLen : Nat) (s : List Nat) : Option (OrderData × List Nat) :=
  if 4 + (msgLen - 4) + 4 ≤ s.length then
    some ({ responseID := fromLE4l (s.take 4),
            ascii := (s.drop 4).take (msgLen - 4),
            crc32 := fromLE4l (((s.drop 4).drop (msgLen - 4)).take 4) },
          ((s.drop 4).drop (msgLen - 4)).drop 4)
  else none

/-- One acknowledgement branch of the dispatcher: decode the order shape, log the
response, and put the tagged order on the shared queue. The source repeats this
block once per handled command identifier. -/
def orderBranch (t : Tag) (msgLen ind : Nat) (s : List Nat) :
    Option (List Ev × Nat × List Nat) :=
  (readOrder msgLen s).map fun p =>
    ([Ev.infoResponse t p.1.ascii, Ev.putOrder t p.1], ind, p.2)

/-- Embeds the message dispatch of `Gps.parseResponces` (lines 184-304): the
`elif` chain on the decoded header's message identifier, in source order. `ind`
is the current value of `self.Indice`; `clockf ind` models the
`datetime.now()` capture timestamp taken while that Indice is current. The
BESTXYZ branch consumes `messageLength + 4` bytes, attaches `Indice` and the
capture time, delivers with a non-blocking put and increments `Indice`; the
unpacks would raise if `messageLength < 112` (modelled as `none`, like
blocking: either way the reader produces nothing further). The final `else`
(line 302-304) is a bare `pass`: nothing is logged and nothing is consumed. -/
def dispatch (clockf : Nat → Nat) (ind : Nat) (h : Header) (s : List Nat) :
    Option (List Ev × Nat × List Nat) :=
  if h.messageID = 1 then orderBranch Tag.LOG h.messageLength ind s
  else if h.messageID = 38 then orderBranch Tag.UNLOGALL h.messageLength ind s
  else if h.messageID = 4 then orderBranch Tag.COM h.messageLength ind s
  else if h.messageID = 258 then
    if h.messageType = 130 then orderBranch Tag.DYNAMICS h.messageLength ind s
    else if 8 ≤ s.length then
      some ([Ev.infoDynamicID (fromLE4l (s.take 4))], ind, (s.drop 4).drop 4)
    else none
  else if h.messageID = 18 then orderBranch Tag.RESET h.messageLength ind s
  else if h.messageID = 19 then orderBranch Tag.SAVECONFIG h.messageLength ind s
  else if h.messageID = 652 then orderBranch Tag.SBASCONTROL h.messageLength ind s
  else if h.messageID = 241 then
    if 112 ≤ h.messageLength ∧ h.messageLength + 4 ≤ s.length then
      some ([Ev.putTelemetryNowait ind (clockf ind)
               (decodeBestXYZ (s.take h.messageLength)
                 (fromLE4l ((s.drop h.messageLength).take 4)))],
            ind + 1, (s.drop h.messageLength).drop 4)
    else none
  else some ([], ind, s)

/-- The message identifiers `Gps.parseResponces` has a branch for. -/
def handledIDs : List Nat := [1, 38, 4, 258, 18, 19, 652, 241]

/-- Fuel-indexed body of the reader loop of `Gps.parseResponces` (lines 168-307):
read one byte; on a first-sync-byte mismatch log a desync debug message and go
round; after matching 0xAA, a mismatch on the second or third sync byte
silently abandons the attempt and the next loop iteration reads the next unread
byte; on a full sync match read 25 header bytes, unpack them and dispatch on
the message identifier. The loop runs until the stream is exhausted (the real
loop blocks on `read`; a blocked read produces no further events). Each
iteration consumes at least one byte, so fuel equal to the stream length runs
the loop to exhaustion. -/
def runF (clockf : Nat → Nat) : Nat → List Nat → Nat → List Ev × Nat
  | 0, _, ind => ([], ind)
  | _ + 1, [], ind => ([], ind)
  | fuel + 1, b :: r, ind =>
    if b = 0xAA then
      match r with
      | [] => ([], ind)
      | b1 :: r1 =>
        if b1 = 0x44 then
          match r1 with
          | [] => ([], ind)
          | b2 :: r2 =>
            if b2 = 0x12 then
              if 25 ≤ r2.length then
                match dispatch clockf ind (unpackHeader25 b b1 b2 (r2.take 25))
                    (r2.drop 25) with
                | none => ([], ind)
                | some (evs, ind2, rest) =>
                  let out := runF clockf fuel rest ind2
                  (evs ++ out.1, out.2)
              else ([], ind)
            else runF clockf fuel r2 ind
        else runF clockf fuel r1 ind
    else
      let out := runF clockf fuel r ind
      (Ev.unexpectedByte b :: out.1, out.2)

/-- The reader loop run over a finite byte stream, starting from `self.Indice`
value `ind` (1 after `Gps.__init__`). -/
def run (clockf : Nat → Nat) (s : List Nat) (ind : Nat) : List Ev × Nat :=
  runF clockf s.length s ind

/-- The Indice and capture time of a telemetry delivery, `none` for other events. -/
def Ev.teleDatum : Ev → Option (Nat × Nat)
  | .putTelemetryNowait i t _ => some (i, t)
  | _ => none

/-- Indice and capture time of the telemetry records delivered in an event trace,
in delivery order. -/
def teleData (evs : List Ev) : List (Nat × Nat) := evs.filterMap Ev.teleDatum

/-- The sequence numbers attached to the delivered telemetry records, in order. -/
def teleIndices (evs : List Ev) : List Nat := (teleData evs).map Prod.fst

/-- The capture timestamps of the delivered telemetry records, in order. -/
def teleTimes (evs : List Ev) : List Nat := (teleData evs).map Prod.snd

/-- True exactly for the events that deliver something to a consumer (an order to
the correlator queue or a telemetry record to the data queue). -/
def Ev.isDelivery : Ev → Bool
  | .putOrder _ _ => true
  | .putTelemetryNowait _ _ _ => true
  | _ => false

/-- Replace the stored crc32 field of a delivered order or telemetry record by 0;
other events are unchanged. Comparing traces up to this erasure states that an
outcome does not depend on the received CRC bytes beyond storing them. -/
def evEraseCrc : Ev → Ev
  | .putOrder t d => .putOrder t { d with crc32 := 0 }
  | .putTelemetryNowait i tm r => .putTelemetryNowait i tm { r with crc32 := 0 }
  | e => e

/-- The number of stream bytes the dispatcher consumes before the trailing 4 CRC
bytes, per branch of `Gps.parseResponces`: the order shape reads
`4 + (messageLength - 4)` body bytes, the informational DYNAMICS body 4, the
BESTXYZ body `messageLength`, and the unhandled branch nothing. -/
def bodyLenFor (h : Header) : Nat :=
  if h.messageID = 1 ∨ h.messageID = 38 ∨ h.messageID = 4 ∨
      (h.messageID = 258 ∧ h.messageType = 130) ∨ h.messageID = 18 ∨
      h.messageID = 19 ∨ h.messageID = 652 then
    4 + (h.messageLength - 4)
  else if h.messageID = 258 then 4
  else if h.messageID = 241 then h.messageLength
  else 0

/-- Session state of a `Gps` object as set up by `Gps.__init__` (lines 103-114):
the open flag, the current baud rate, the shared `orders` queue (modelled as the
list of dicts the reader thread will deliver, in order) and the `Indice`
telemetry sequence counter. -/
structure GpsState where
  isOpen : Bool
  baudRate : Nat
  orders : List (Tag × OrderData)
  indice : Nat
deriving DecidableEq, Repr

/-- The state after `Gps.__init__`: port closed, baud rate 9600, empty orders
queue, Indice 1. -/
def initState : GpsState := ⟨false, 9600, [], 1⟩

/-- How a command call returns to its caller: a Python value (`some true`,
`some false`, or `none` for the implicit `None` of a fall-through), blocking
forever on `orders.get()`, or an uncaught exception. -/
inductive Ret where
  | value (b : Option Bool)
  | blocked
  | exn (e : PyError)
deriving DecidableEq, Repr

/-- The log calls of the foreground command methods that the claims refer to. -/
inductive CallLog where
  | infoRequested (t : Tag)
  | infoResponseReceived (t : Tag) (ascii : List Nat)
  | warnUnexpectedResponse (received : Tag)
  | infoPortNotOpen (t : Tag)
  | infoInvalidArg
deriving DecidableEq, Repr

/-- Result of a foreground command call: the returned value, the session state
after the call, the frames written to the transport, and the log calls made. -/
structure CallResult where
  ret : Ret
  state : GpsState
  writes : List (List Nat)
  logs : List CallLog
deriving DecidableEq, Repr

/-- Embeds the shared tail of every acknowledged command call (e.g.
`Gps.sendUnlogall` lines 507-520): write the frame, block on
`self.orders.get()`, compare the dequeued tag with the expected command name;
on a match return `True` exactly when the response code equals 1, on a mismatch
log a warning and fall through (returning `None`). Exactly one item is
dequeued; nothing is re-queued and nothing is retried. -/
def awaitTail (expected : Tag) (st : GpsState) (frame : List Nat)
    (lg : List CallLog) : CallResult :=
  match st.orders with
  | [] => ⟨Ret.blocked, st, [frame], lg⟩
  | (t, d) :: rest =>
    if t = expected then
      ⟨Ret.value (some (decide (d.responseID = 1))), { st with orders := rest },
       [frame], lg ++ [CallLog.infoResponseReceived t d.ascii]⟩
    else
      ⟨Ret.value none, { st with orders := rest }, [frame],
       lg ++ [CallLog.warnUnexpectedResponse t]⟩

/-- Embeds `Gps.sendUnlogall` (lines 467-523). -/
def sendUnlogallCall (st : GpsState) (port held : Nat) : CallResult :=
  if st.isOpen then
    awaitTail Tag.UNLOGALL st (unlogallFrame port held)
      [CallLog.infoRequested Tag.UNLOGALL]
  else ⟨Ret.value (some false), st, [], [CallLog.infoPortNotOpen Tag.UNLOGALL]⟩

/-- Embeds `Gps.setCom` (lines 525-665): after writing the frame the method does
not wait on the orders queue; it applies the new settings to the local port and
returns `True` while the port object remains open (modelled by updating the
session baud rate). `parity_vect[parity]` raises `IndexError` for `parity > 2`,
after the frame was already written and before settings are applied. -/
def setComCall (st : GpsState)
    (baud port parity databits stopbits handshake echo breakCond : Nat) :
    CallResult :=
  if st.isOpen then
    let frame := setComFrame port baud parity databits stopbits handshake echo breakCond
    if parity < 3 then
      ⟨Ret.value (some true), { st with baudRate := baud }, [frame],
       [CallLog.infoRequested Tag.COM]⟩
    else ⟨Ret.exn PyError.indexError, st, [frame], [CallLog.infoRequested Tag.COM]⟩
  else ⟨Ret.value (some false), st, [], [CallLog.infoPortNotOpen Tag.COM]⟩

/-- Embeds `Gps.askLog` (lines 667-757); `self.MessageID[logID]` raises `KeyError`
for an unknown log name, otherwise the frame is written and the call waits for a
LOG-tagged order. -/
def askLogCall (st : GpsState) (logID : String) (port trigger : Nat)
    (periodB offsetB : List Nat) (hold : Nat) : CallResult :=
  if st.isOpen then
    match MessageID logID with
    | none => ⟨Ret.exn PyError.keyError, st, [], []⟩
    | some lid =>
      awaitTail Tag.LOG st (askLogFrame lid port trigger periodB offsetB hold)
        [CallLog.infoRequested Tag.LOG]
  else ⟨Ret.value (some false), st, [], [CallLog.infoPortNotOpen Tag.LOG]⟩

/-- Embeds `Gps.setDynamics` (lines 759-853): on an open session and a dynamicID
in `[0, 1, 2]` the frame is written and the call waits for a DYNAMICS-tagged
order; an invalid dynamicID returns `False` with nothing written. -/
def setDynamicsCall (st : GpsState) (dynamicID : Nat) : CallResult :=
  if st.isOpen then
    if dynamicID = 0 ∨ dynamicID = 1 ∨ dynamicID = 2 then
      awaitTail Tag.DYNAMICS st (setDynamicsFrame dynamicID)
        [CallLog.infoRequested Tag.DYNAMICS]
    else ⟨Ret.value (some false), st, [], [CallLog.infoInvalidArg]⟩
  else ⟨Ret.value (some false), st, [], [CallLog.infoPortNotOpen Tag.DYNAMICS]⟩

/-- Embeds `Gps.reset` (lines 944-1002): on an open session the frame
construction raises `TypeError` (see `resetEncode`); the intended path would
write the frame and wait for a RESET-tagged order. -/
def resetCall (st : GpsState) (delay : Nat) : CallResult :=
  if st.isOpen then
    match resetEncode delay with
    | .error e => ⟨Ret.exn e, st, [], []⟩
    | .ok frame => awaitTail Tag.RESET st frame [CallLog.infoRequested Tag.RESET]
  else ⟨Ret.value (some false), st, [], [CallLog.infoPortNotOpen Tag.RESET]⟩

/-- Embeds `Gps.saveconfig` (lines 1004-1053); the frame construction raises
`TypeError` (see `saveconfigEncode`). -/
def saveconfigCall (st : GpsState) : CallResult :=
  if st.isOpen then
    match saveconfigEncode with
    | .error e => ⟨Ret.exn e, st, [], []⟩
    | .ok frame =>
      awaitTail Tag.SAVECONFIG st frame [CallLog.infoRequested Tag.SAVECONFIG]
  else ⟨Ret.value (some false), st, [], [CallLog.infoPortNotOpen Tag.SAVECONFIG]⟩

/-- Embeds `Gps.sbascontrol` (lines 1055-1161); the frame construction raises
`TypeError` (see `sbascontrolEncode`). -/
def sbascontrolCall (st : GpsState) (keywordID systemID prn testmode : Nat) :
    CallResult :=
  if st.isOpen then
    match sbascontrolEncode keywordID systemID prn testmode with
    | .error e => ⟨Ret.exn e, st, [], []⟩
    | .ok frame =>
      awaitTail Tag.SBASCONTROL st frame [CallLog.infoRequested Tag.SBASCONTROL]
  else ⟨Ret.value (some false), st, [], [CallLog.infoPortNotOpen Tag.SBASCONTROL]⟩

/-- Environment of `Gps.begin`: whether `os.path.exists(comPort)` holds and
whether the constructed serial port reports `is_open`. -/
structure BeginEnv where
  pathExists : Bool
  portOpens : Bool
deriving DecidableEq, Repr

/-- Result of `Gps.begin`: the returned boolean, the session state after the
call, and whether the reader thread was started. -/
structure BeginOut where
  ret : Bool
  state : GpsState
  threadStarted : Bool
deriving DecidableEq, Repr

/-- Embeds `Gps.begin` (lines 310-382): if the device path does not exist, warn
and return `False` at once; if the opened port does not report open, set the
open flag false and return `False`; otherwise perform the break-reset sequence,
record the baud rate, mark the session open, start the reader thread and return
`True`. There is a single open attempt — no retry appears in the source. -/
def begin (st : GpsState) (env : BeginEnv) (baudRate : Nat) : BeginOut :=
  if ¬env.pathExists then ⟨false, st, false⟩
  else if ¬env.portOpens then ⟨false, { st with isOpen := false }, false⟩
  else ⟨true, { st with isOpen := true, baudRate := baudRate }, true⟩

/-- Body of a concrete UNLOGALL acknowledgement: response code 1, ASCII text OK. -/
def frameC2body : List Nat := [1, 0, 0, 0, 79, 75]

/-- A well-formed concrete frame: UNLOGALL acknowledgement header (identifier 38,
body length 6), the body above, and the CRC-32 of header plus body as the
trailing four bytes. -/
def frameC2 : List Nat :=
  packHeader (create_header 38 6 192) ++ frameC2body
    ++ toLE4 (CRC32Value (packHeader (create_header 38 6 192) ++ frameC2body))

/-- A concrete BESTXYZ telemetry frame: header with identifier 241 and body
length 112, a 112-byte body of zeros, and four (arbitrary) CRC bytes — the
scanner never reads the CRC value. -/
def teleFrame : List Nat :=
  packHeader (create_header 241 112 192) ++ List.replicate 112 0 ++ [7, 7, 7, 7]

/-- A concrete header with every field distinct and the sync vector in place. -/
def hW4 : Header :=
  ⟨0xAA, 0x44, 0x12, 28, 241, 2, 192, 112, 5, 9, 100, 1234, -5, 77, 3, 42⟩

/-- A 28-byte vector that does not start with the sync sequence. -/
def badBs : List Nat := List.replicate 28 0

/-- An open session whose orders queue holds a matching UNLOGALL acknowledgement
with success code 1. -/
def stC5 : GpsState := ⟨true, 9600, [(Tag.UNLOGALL, ⟨1, [79, 75], 0⟩)], 1⟩

/-- An open session whose orders queue holds a matching DYNAMICS acknowledgement
with non-success code 3. -/
def stC5d : GpsState := ⟨true, 9600, [(Tag.DYNAMICS, ⟨3, [], 0⟩)], 1⟩

/-- An open session whose orders queue holds a COM-tagged order, mismatching the
commands issued in the witnesses. -/
def stC6 : GpsState := ⟨true, 9600, [(Tag.COM, ⟨1, [], 0⟩)], 1⟩

end Novatel

namespace Novatel

lemma packTail_length (h : Header) : (packTail h).length = 25 := rfl

lemma packHeader_length (h : Header) : (packHeader h).length = 28 := rfl

/-- Unpacking the 25 packed tail bytes recovers every header field. -/
lemma unpack_packTail (h : Header) (hv : ValidHeader h) :
    unpackHeader25 h.sync0 h.sync1 h.sync2 (packTail h) = h := by
  obtain ⟨q0, q1, q2, q3, q4, q5, q6, q7, q8, q9, q10, q11, q12, q13, q14, q15, q16⟩ := hv
  ext <;>
    simp only [unpackHeader25, packTail, toLE2, toLE4, toLEi4, fromLE2, fromLE4,
      fromLEi4, List.cons_append, List.nil_append]
  all_goals omega

/-- Decoding the encoding of a well-formed header with the sync vector in place
returns the header unchanged. -/
lemma decode_pack (h : Header) (hv : ValidHeader h) (hs : hasSync h) :
    decodeHeader (packHeader h) = some h := by
  obtain ⟨e0, e1, e2⟩ := hs
  have g0 : (packHeader h).getD 0 0 = h.sync0 := rfl
  have g1 : (packHeader h).getD 1 0 = h.sync1 := rfl
  have g2 : (packHeader h).getD 2 0 = h.sync2 := rfl
  have hdrop : (packHeader h).drop 3 = packTail h := rfl
  rw [decodeHeader, if_pos ⟨packHeader_length h, by rw [g0, e0], by rw [g1, e1],
    by rw [g2, e2]⟩, g0, g1, g2, hdrop, unpack_packTail h hv]

/-- On 28 bytes, decoding fails exactly when the 3-byte sync vector mismatches. -/
lemma decode_none_iff (bs : List Nat) (hlen : bs.length = 28) :
    decodeHeader bs = none ↔
      ¬(bs.getD 0 0 = 0xAA ∧ bs.getD 1 0 = 0x44 ∧ bs.getD 2 0 = 0x12) := by
  rw [decodeHeader]
  split_ifs with hc
  · simp only [reduceCtorEq, false_iff, not_not]
    exact ⟨hc.2.1, hc.2.2⟩
  · simp only [true_iff]
    intro hp
    exact hc ⟨hlen, hp.1, hp.2.1, hp.2.2⟩

/-- C4. Round-trip of the header codec: decoding the 28 bytes produced by
encoding any well-formed header field set yields the same field set; encoding
is total on well-typed input (it is a total function); and decoding a 28-byte
vector fails — treats it as not a frame start — exactly when its first three
bytes differ from the fixed sync constant 0xAA 0x44 0x12 (no other field,
including the header-length byte, is checked by the source scanner). -/
theorem C4_header_roundtrip :
    (∀ h : Header, ValidHeader h → hasSync h → decodeHeader (packHeader h) = some h)
    ∧ (∀ bs : List Nat, bs.length = 28 →
        (decodeHeader bs = none ↔
          ¬(bs.getD 0 0 = 0xAA ∧ bs.getD 1 0 = 0x44 ∧ bs.getD 2 0 = 0x12))) :=
  ⟨fun h hv hs => decode_pack h hv hs, fun bs hl => decode_none_iff bs hl⟩

/-- Witness for C4 at a concrete header and a concrete sync-less byte vector. -/
theorem C4_header_roundtrip_witness :
    decodeHeader (packHeader hW4) = some hW4 ∧
      (decodeHeader badBs = none ↔
        ¬(badBs.getD 0 0 = 0xAA ∧ badBs.getD 1 0 = 0x44 ∧ badBs.getD 2 0 = 0x12)) :=
  ⟨C4_header_roundtrip.1 hW4 (by decide) (by decide),
   C4_header_roundtrip.2 badBs (by decide)⟩

/-- C1. The claim states that for every command kind the encoder succeeds and
frames the fixed identifier, the body length and the trailing CRC. The code
contradicts it for three of the seven kinds: `reset`, `saveconfig` and
`sbascontrol` fetch their message identifier with `self.MessageID('KEY')`,
calling the dict, which raises `TypeError` before a single frame byte exists
(additionally `saveconfig` asks for the RESET key and `sbascontrol` declares
body length 0 for its 16-byte body). This theorem evaluates the embedded
constructions at concrete inputs. -/
theorem C1_dict_call_bug :
    resetEncode 0 = Except.error PyError.typeErrorDictNotCallable
    ∧ saveconfigEncode = Except.error PyError.typeErrorDictNotCallable
    ∧ sbascontrolEncode 1 1 0 0 = Except.error PyError.typeErrorDictNotCallable :=
  ⟨rfl, rfl, rfl⟩

/-- C3 (amended). For every decoded header whose message identifier is outside
the handled set, the dispatcher consumes no bytes past the 28-byte header — the
body and CRC bytes remain unread — and, contrary to the original claim, it
emits no log at all: the branch is a bare `pass`. In this embedding every log
call of the reader thread produces an event, so the empty event list means
nothing was logged. -/
theorem C3_unhandled_silent :
    ∀ (clockf : Nat → Nat) (ind : Nat) (h : Header) (s : List Nat),
      h.messageID ∉ handledIDs → dispatch clockf ind h s = some ([], ind, s) := by
  intro clockf ind h s hm
  simp only [handledIDs, List.mem_cons, List.not_mem_nil, or_false, not_or] at hm
  obtain ⟨n1, n38, n4, n258, n18, n19, n652, n241⟩ := hm
  simp [dispatch, n1, n38, n4, n258, n18, n19, n652, n241]

/-- Witness for C3 (amended) at the DATUM identifier 160 — a message the device
can send whose identifier has no dispatcher branch. -/
theorem C3_unhandled_silent_witness :
    dispatch (fun _ => 0) 1 (create_header 160 4 192) [9, 9, 9, 9] =
      some ([], 1, [9, 9, 9, 9]) :=
  C3_unhandled_silent (fun _ => 0) 1 (create_header 160 4 192) [9, 9, 9, 9]
    (by decide)

/-- C3 counterexample to the claim as stated. For the concrete unhandled header
with identifier 160 (DATUM) and four pending body bytes, the dispatcher leaves
the stream untouched, and its event trace is empty: since every log call of the
reader thread is an event in this embedding, an empty trace means the event was
not logged — the source branch is `pass` with a todo comment — refuting the
claimed "logs the event". -/
theorem C3_counterexample :
    (dispatch (fun _ => 0) 1 (create_header 160 4 192) [9, 9, 9, 9]).map
        (fun o => o.1) = some []
    ∧ (dispatch (fun _ => 0) 1 (create_header 160 4 192) [9, 9, 9, 9]).map
        (fun o => o.2.2) = some [9, 9, 9, 9] := by
  exact ⟨rfl, rfl⟩

/-- C9. If the transport cannot be opened — the device path is absent or the
opened port does not report open — then `begin` returns `False` immediately,
does not start the reader thread, and leaves the (initially closed) session
closed and unchanged. The embedded `begin` performs a single open attempt, as
the source does: there is no retry. -/
theorem C9_begin_failure :
    ∀ (st : GpsState) (env : BeginEnv) (baud : Nat), st.isOpen = false →
      (env.pathExists = false ∨ env.portOpens = false) →
      begin st env baud = ⟨false, st, false⟩ := by
  intro st env baud hclosed henv
  obtain ⟨io, br, od, ind⟩ := st
  simp only at hclosed
  subst hclosed
  rcases henv with hp | ho
  · simp [begin, hp]
  · by_cases hp : env.pathExists
    · simp [begin, hp, ho]
    · simp [begin, hp]

/-- Witness for C9: both failure modes at the initial session state. -/
theorem C9_begin_failure_witness :
    begin initState ⟨false, true⟩ 9600 = ⟨false, initState, false⟩
    ∧ begin initState ⟨true, false⟩ 9600 = ⟨false, initState, false⟩ :=
  ⟨C9_begin_failure initState ⟨false, true⟩ 9600 rfl (Or.inl rfl),
   C9_begin_failure initState ⟨true, false⟩ 9600 rfl (Or.inr rfl)⟩

/-- C10. Every command-issuing method, called on a session that is not open,
returns `False`, writes nothing to the transport, and leaves the whole session
state — open flag, baud rate, orders queue and Indice counter — unchanged;
the only action is the "Port not open" info log. -/
theorem C10_closed_session_noop :
    ∀ (st : GpsState), st.isOpen = false →
      ∀ (port held baud parity databits stopbits handshake echo breakCond
          trigger hold dynamicID delay keywordID systemID prn testmode : Nat)
        (logID : String) (periodB offsetB : List Nat),
      sendUnlogallCall st port held =
        ⟨Ret.value (some false), st, [], [CallLog.infoPortNotOpen Tag.UNLOGALL]⟩
      ∧ setComCall st baud port parity databits stopbits handshake echo breakCond =
        ⟨Ret.value (some false), st, [], [CallLog.infoPortNotOpen Tag.COM]⟩
      ∧ askLogCall st logID port trigger periodB offsetB hold =
        ⟨Ret.value (some false), st, [], [CallLog.infoPortNotOpen Tag.LOG]⟩
      ∧ setDynamicsCall st dynamicID =
        ⟨Ret.value (some false), st, [], [CallLog.infoPortNotOpen Tag.DYNAMICS]⟩
      ∧ resetCall st delay =
        ⟨Ret.value (some false), st, [], [CallLog.infoPortNotOpen Tag.RESET]⟩
      ∧ saveconfigCall st =
        ⟨Ret.value (some false), st, [], [CallLog.infoPortNotOpen Tag.SAVECONFIG]⟩
      ∧ sbascontrolCall st keywordID systemID prn testmode =
        ⟨Ret.value (some false), st, [],
         [CallLog.infoPortNotOpen Tag.SBASCONTROL]⟩ := by
  intro st hclosed port held baud parity databits stopbits handshake echo breakCond
    trigger hold dynamicID delay keywordID systemID prn testmode logID periodB offsetB
  refine ⟨?_, ?_, ?_, ?_, ?_, ?_, ?_⟩ <;>
    simp [sendUnlogallCall, setComCall, askLogCall, setDynamicsCall, resetCall,
      saveconfigCall, sbascontrolCall, hclosed]

/-- Witness for C10 at the initial (closed) session state. -/
theorem C10_closed_session_noop_witness :
    sendUnlogallCall initState 8 1 =
      ⟨Ret.value (some false), initState, [], [CallLog.infoPortNotOpen Tag.UNLOGALL]⟩
    ∧ saveconfigCall initState =
      ⟨Ret.value (some false), initState, [],
       [CallLog.infoPortNotOpen Tag.SAVECONFIG]⟩ := by
  have h := C10_closed_session_noop initState rfl 8 1 9600 0 8 1 0 0 1 4 0 0 0 1 1
    0 0 "BESTXYZ" (List.replicate 8 0) (List.replicate 8 0)
  exact ⟨h.1, h.2.2.2.2.2.1⟩

/-- C5. For each command-issuing call that waits on the orders queue, on an open
session whose next order carries the matching tag, the call returns `True`
exactly when the order's 4-byte response code equals the fixed success value 1,
and returns `False` when the tag matches but the code differs. -/
theorem C5_success_iff_code_one :
    (∀ (st : GpsState) (d : OrderData) (rest : List (Tag × OrderData))
        (port held : Nat),
      st.isOpen = true → st.orders = (Tag.UNLOGALL, d) :: rest →
      ((sendUnlogallCall st port held).ret = Ret.value (some true) ↔
          d.responseID = 1)
      ∧ (d.responseID ≠ 1 →
          (sendUnlogallCall st port held).ret = Ret.value (some false)))
    ∧ (∀ (st : GpsState) (d : OrderData) (rest : List (Tag × OrderData))
        (port trigger hold : Nat) (periodB offsetB : List Nat),
      st.isOpen = true → st.orders = (Tag.LOG, d) :: rest →
      ((askLogCall st "BESTXYZ" port trigger periodB offsetB hold).ret =
          Ret.value (some true) ↔ d.responseID = 1)
      ∧ (d.responseID ≠ 1 →
          (askLogCall st "BESTXYZ" port trigger periodB offsetB hold).ret =
            Ret.value (some false)))
    ∧ (∀ (st : GpsState) (d : OrderData) (rest : List (Tag × OrderData))
        (dynamicID : Nat), dynamicID = 0 ∨ dynamicID = 1 ∨ dynamicID = 2 →
      st.isOpen = true → st.orders = (Tag.DYNAMICS, d) :: rest →
      ((setDynamicsCall st dynamicID).ret = Ret.value (some true) ↔
          d.responseID = 1)
      ∧ (d.responseID ≠ 1 →
          (setDynamicsCall st dynamicID).ret = Ret.value (some false))) := by
  refine ⟨?_, ?_, ?_⟩
  · intro st d rest port held hopen horders
    constructor
    · simp [sendUnlogallCall, awaitTail, hopen, horders]
    · intro hne
      simp [sendUnlogallCall, awaitTail, hopen, horders, hne]
  · intro st d rest port trigger hold periodB offsetB hopen horders
    have hM : MessageID "BESTXYZ" = some 241 := by decide
    constructor
    · simp [askLogCall, awaitTail, hopen, horders, hM]
    · intro hne
      simp [askLogCall, awaitTail, hopen, horders, hM, hne]
  · intro st d rest dynamicID hdyn hopen horders
    constructor
    · simp [setDynamicsCall, awaitTail, hopen, horders, hdyn]
    · intro hne
      simp [setDynamicsCall, awaitTail, hopen, horders, hdyn, hne]

/-- Witness for C5: a matching UNLOGALL order with code 1 yields `True`; a
matching DYNAMICS order with code 3 yields `False`. -/
theorem C5_success_iff_code_one_witness :
    ((sendUnlogallCall stC5 8 1).ret = Ret.value (some true) ↔
      (⟨1, [79, 75], 0⟩ : OrderData).responseID = 1)
    ∧ (setDynamicsCall stC5d 1).ret = Ret.value (some false) :=
  ⟨(C5_success_iff_code_one.1 stC5 ⟨1, [79, 75], 0⟩ [] 8 1 rfl rfl).1,
   (C5_success_iff_code_one.2.2 stC5d ⟨3, [], 0⟩ [] 1 (Or.inr (Or.inl rfl))
      rfl rfl).2 (by decide)⟩

/-- C6. For each command-issuing call that waits on the orders queue, when the
dequeued order carries a tag different from the expected command name, the call
logs the "unexpected response" warning and returns the falsy `None`, having
written the command frame exactly once (no retry), dequeued exactly one item
(the orders queue is left at the remaining tail) and re-queued nothing. -/
theorem C6_mismatch_failure :
    (∀ (st : GpsState) (t : Tag) (d : OrderData) (rest : List (Tag × OrderData))
        (port held : Nat),
      st.isOpen = true → st.orders = (t, d) :: rest → t ≠ Tag.UNLOGALL →
      sendUnlogallCall st port held =
        ⟨Ret.value none, { st with orders := rest }, [unlogallFrame port held],
         [CallLog.infoRequested Tag.UNLOGALL, CallLog.warnUnexpectedResponse t]⟩)
    ∧ (∀ (st : GpsState) (t : Tag) (d : OrderData) (rest : List (Tag × OrderData))
        (port trigger hold : Nat) (periodB offsetB : List Nat),
      st.isOpen = true → st.orders = (t, d) :: rest → t ≠ Tag.LOG →
      askLogCall st "BESTXYZ" port trigger periodB offsetB hold =
        ⟨Ret.value none, { st with orders := rest },
         [askLogFrame 241 port trigger periodB offsetB hold],
         [CallLog.infoRequested Tag.LOG, CallLog.warnUnexpectedResponse t]⟩)
    ∧ (∀ (st : GpsState) (t : Tag) (d : OrderData) (rest : List (Tag × OrderData))
        (dynamicID : Nat), dynamicID = 0 ∨ dynamicID = 1 ∨ dynamicID = 2 →
      st.isOpen = true → st.orders = (t, d) :: rest → t ≠ Tag.DYNAMICS →
      setDynamicsCall st dynamicID =
        ⟨Ret.value none, { st with orders := rest }, [setDynamicsFrame dynamicID],
         [CallLog.infoRequested Tag.DYNAMICS,
          CallLog.warnUnexpectedResponse t]⟩) := by
  refine ⟨?_, ?_, ?_⟩
  · intro st t d rest port held hopen horders hne
    simp [sendUnlogallCall, awaitTail, hopen, horders, hne]
  · intro st t d rest port trigger hold periodB offsetB hopen horders hne
    have hM : MessageID "BESTXYZ" = some 241 := by decide
    simp [askLogCall, awaitTail, hopen, horders, hM, hne]
  · intro st t d rest dynamicID hdyn hopen horders hne
    simp [setDynamicsCall, awaitTail, hopen, horders, hdyn, hne]

/-- Witness for C6: a COM-tagged order dequeued by `sendUnlogall`. -/
theorem C6_mismatch_failure_witness :
    sendUnlogallCall stC6 8 1 =
      ⟨Ret.value none, { stC6 with orders := [] }, [unlogallFrame 8 1],
       [CallLog.infoRequested Tag.UNLOGALL,
        CallLog.warnUnexpectedResponse Tag.COM]⟩ :=
  C6_mismatch_failure.1 stC6 Tag.COM ⟨1, [], 0⟩ [] 8 1 rfl rfl (by decide)

/-- An acknowledgement branch leaves a suffix of its stream, delivers no
telemetry, and keeps the Indice counter. -/
lemma orderBranch_some {t : Tag} {msgLen ind : Nat} {s : List Nat}
    {evs : List Ev} {ind2 : Nat} {rest : List Nat}
    (h : orderBranch t msgLen ind s = some (evs, ind2, rest)) :
    rest.length ≤ s.length ∧ teleData evs = [] ∧ ind2 = ind := by
  unfold orderBranch readOrder at h
  split at h
  · simp only [Option.map_some', Option.some.injEq, Prod.mk.injEq] at h
    obtain ⟨rfl, rfl, rfl⟩ := h
    refine ⟨?_, rfl, rfl⟩
    simp only [List.length_drop]
    omega
  · simp at h

/-- The dispatcher consumes a suffix and either delivers no telemetry (keeping
the Indice) or delivers exactly one record stamped with the current Indice and
clock value, incrementing the Indice. -/
lemma dispatch_spec {clockf : Nat → Nat} {ind : Nat} {h : Header} {s : List Nat}
    {evs : List Ev} {ind2 : Nat} {rest : List Nat}
    (hd : dispatch clockf ind h s = some (evs, ind2, rest)) :
    rest.length ≤ s.length ∧
      ((teleData evs = [] ∧ ind2 = ind) ∨
        (teleData evs = [(ind, clockf ind)] ∧ ind2 = ind + 1)) := by
  unfold dispatch at hd
  split_ifs at hd
  any_goals exact ⟨(orderBranch_some hd).1, Or.inl (orderBranch_some hd).2⟩
  all_goals try simp only [Option.some.injEq, Prod.mk.injEq] at hd
  all_goals obtain ⟨rfl, rfl, rfl⟩ := hd
  all_goals refine ⟨by (try simp only [List.length_drop]); omega, ?_⟩
  all_goals first
    | exact Or.inl ⟨rfl, rfl⟩
    | exact Or.inr ⟨rfl, rfl⟩

/-- The reader loop consumes at least one byte per iteration, so any fuel at
least the stream length yields the same run. -/
lemma runF_stable (clockf : Nat → Nat) :
    ∀ (f1 : Nat) {f2 : Nat} {s : List Nat} {ind : Nat},
      s.length ≤ f1 → s.length ≤ f2 →
      runF clockf f1 s ind = runF clockf f2 s ind := by
  intro f1
  induction f1 with
  | zero =>
    intro f2 s ind h1 h2
    have hs : s = [] := List.eq_nil_of_length_eq_zero (Nat.le_zero.mp h1)
    subst hs
    cases f2 <;> rfl
  | succ f1 ih =>
    intro f2 s ind h1 h2
    cases s with
    | nil => cases f2 <;> rfl
    | cons b r =>
      cases f2 with
      | zero => simp at h2
      | succ f2 =>
        have hl1 : r.length ≤ f1 := by
          simp only [List.length_cons] at h1; omega
        have hl2 : r.length ≤ f2 := by
          simp only [List.length_cons] at h2; omega
        by_cases hb : b = 0xAA
        · subst hb
          cases r with
          | nil => rfl
          | cons b1 r1 =>
            by_cases hb1 : b1 = 0x44
            · subst hb1
              cases r1 with
              | nil => rfl
              | cons b2 r2 =>
                have hlen1 : r2.length + 3 ≤ f1 + 1 := by simpa using h1
                have hlen2 : r2.length + 3 ≤ f2 + 1 := by simpa using h2
                by_cases hb2 : b2 = 0x12
                · subst hb2
                  by_cases h25 : 25 ≤ r2.length
                  · cases hdisp : dispatch clockf ind
                        (unpackHeader25 0xAA 0x44 0x12 (r2.take 25))
                        (r2.drop 25) with
                    | none => simp [runF, h25, hdisp]
                    | some out =>
                      obtain ⟨evs, ind2, rest⟩ := out
                      have hr : rest.length ≤ r2.length - 25 := by
                        have hle := (dispatch_spec hdisp).1
                        simp only [List.length_drop] at hle
                        omega
                      have hrec := @ih f2 rest ind2 (by omega) (by omega)
                      simp [runF, h25, hdisp, hrec]
                  · simp [runF, h25]
                · have e1 : runF clockf (f1 + 1) (0xAA :: 0x44 :: b2 :: r2) ind =
                      runF clockf f1 r2 ind := by simp [runF, hb2]
                  have e2 : runF clockf (f2 + 1) (0xAA :: 0x44 :: b2 :: r2) ind =
                      runF clockf f2 r2 ind := by simp [runF, hb2]
                  rw [e1, e2]
                  exact @ih f2 r2 ind (by omega) (by omega)
            · have e1 : runF clockf (f1 + 1) (0xAA :: b1 :: r1) ind =
                  runF clockf f1 r1 ind := by simp [runF, hb1]
              have e2 : runF clockf (f2 + 1) (0xAA :: b1 :: r1) ind =
                  runF clockf f2 r1 ind := by simp [runF, hb1]
              rw [e1, e2]
              have hlen1 : r1.length + 2 ≤ f1 + 1 := by simpa using h1
              have hlen2 : r1.length + 2 ≤ f2 + 1 := by simpa using h2
              exact @ih f2 r1 ind (by omega) (by omega)
        · have e1 : runF clockf (f1 + 1) (b :: r) ind =
              (Ev.unexpectedByte b :: (runF clockf f1 r ind).1,
               (runF clockf f1 r ind).2) := by simp [runF, hb]
          have e2 : runF clockf (f2 + 1) (b :: r) ind =
              (Ev.unexpectedByte b :: (runF clockf f2 r ind).1,
               (runF clockf f2 r ind).2) := by simp [runF, hb]
          rw [e1, e2, @ih f2 r ind hl1 hl2]

/-- A byte that is not the first sync byte is discarded with a desync debug log
and scanning continues on the remaining stream. -/
lemma run_desync (clockf : Nat → Nat) (b : Nat) (s : List Nat) (ind : Nat)
    (hb : b ≠ 0xAA) :
    run clockf (b :: s) ind =
      (Ev.unexpectedByte b :: (run clockf s ind).1, (run clockf s ind).2) := by
  unfold run
  simp [runF, hb]

/-- A byte that fails to match as the second sync byte is consumed without any
log and scanning resumes at the next unread byte. -/
lemma run_sync2_fail (clockf : Nat → Nat) (b1 : Nat) (s : List Nat) (ind : Nat)
    (hb1 : b1 ≠ 0x44) :
    run clockf (0xAA :: b1 :: s) ind = run clockf s ind := by
  unfold run
  have e1 : runF clockf (s.length + 1 + 1) (0xAA :: b1 :: s) ind =
      runF clockf (s.length + 1) s ind := by simp [runF, hb1]
  simp only [List.length_cons, e1]
  exact runF_stable clockf (s.length + 1) (by omega) (by omega)

/-- A byte that fails to match as the third sync byte is consumed without any
log and scanning resumes at the next unread byte. -/
lemma run_sync3_fail (clockf : Nat → Nat) (b2 : Nat) (s : List Nat) (ind : Nat)
    (hb2 : b2 ≠ 0x12) :
    run clockf (0xAA :: 0x44 :: b2 :: s) ind = run clockf s ind := by
  unfold run
  have e1 : runF clockf (s.length + 1 + 1 + 1) (0xAA :: 0x44 :: b2 :: s) ind =
      runF clockf (s.length + 1 + 1) s ind := by simp [runF, hb2]
  simp only [List.length_cons, e1]
  exact runF_stable clockf (s.length + 1 + 1) (by omega) (by omega)

/-- On a stream that starts with the 28 bytes of a packed well-formed header,
the scanner matches the three sync bytes, unpacks exactly the packed header
fields and hands the remaining stream to the dispatcher. -/
lemma run_lock (clockf : Nat → Nat) (h : Header) (s : List Nat) (ind : Nat)
    {evs : List Ev} {ind2 : Nat} {rest : List Nat}
    (hv : ValidHeader h) (hs : hasSync h)
    (hd : dispatch clockf ind h s = some (evs, ind2, rest)) :
    run clockf (packHeader h ++ s) ind =
      (evs ++ (run clockf rest ind2).1, (run clockf rest ind2).2) := by
  obtain ⟨e0, e1, e2⟩ := hs
  have hph : packHeader h ++ s = 0xAA :: 0x44 :: 0x12 :: (packTail h ++ s) := by
    simp [packHeader, e0, e1, e2]
  rw [hph]
  unfold run
  have hlen : (0xAA :: 0x44 :: 0x12 :: (packTail h ++ s)).length =
      (s.length + 27) + 1 := by
    simp [packTail_length]
    omega
  rw [hlen]
  have h25 : 25 ≤ (packTail h ++ s).length := by
    simp [packTail_length]
  have htake : (packTail h ++ s).take 25 = packTail h :=
    List.take_left' (packTail_length h)
  have hdrop : (packTail h ++ s).drop 25 = s :=
    List.drop_left' (packTail_length h)
  have hun : unpackHeader25 0xAA 0x44 0x12 ((packTail h ++ s).take 25) = h := by
    rw [htake, ← e0, ← e1, ← e2, unpack_packTail h hv]
  simp only [runF, if_pos rfl, h25, if_true, hun, hdrop, hd]
  have hr : rest.length ≤ s.length := by
    have hle := (dispatch_spec hd).1
    omega
  have hstab : runF clockf (s.length + 27) rest ind2 =
      runF clockf rest.length rest ind2 :=
    @runF_stable clockf (s.length + 27) rest.length rest ind2 (by omega)
      (Nat.le_refl _)
  rw [hstab]

/-- C2 (amended). The frame scanner discards one non-matching byte at a time
(logging a desync event); after a first-sync-byte match, a mismatch on the
second or third sync byte abandons the attempt and scanning resumes at the next
unread byte, the failed byte never being re-examined as a candidate first sync
byte; and for a stream consisting of one junk byte that differs from the first
sync byte 0xAA, followed by a well-formed frame, the scanner locks onto that
frame: it decodes exactly the frame's header fields and dispatches its body.
(The original claim quantified over every junk byte; for junk byte 0xAA the
frame's own first sync byte is consumed as a failed second-sync candidate and
the frame is lost — see the counterexample.) -/
theorem C2_resync_amended :
    (∀ (clockf : Nat → Nat) (b : Nat) (s : List Nat) (ind : Nat), b ≠ 0xAA →
      run clockf (b :: s) ind =
        (Ev.unexpectedByte b :: (run clockf s ind).1, (run clockf s ind).2))
    ∧ (∀ (clockf : Nat → Nat) (b1 : Nat) (s : List Nat) (ind : Nat), b1 ≠ 0x44 →
      run clockf (0xAA :: b1 :: s) ind = run clockf s ind)
    ∧ (∀ (clockf : Nat → Nat) (b2 : Nat) (s : List Nat) (ind : Nat), b2 ≠ 0x12 →
      run clockf (0xAA :: 0x44 :: b2 :: s) ind = run clockf s ind)
    ∧ (∀ (clockf : Nat → Nat) (junk : Nat) (h : Header) (s : List Nat)
        (ind : Nat) (evs : List Ev) (ind2 : Nat) (rest : List Nat),
      junk ≠ 0xAA → ValidHeader h → hasSync h →
      dispatch clockf ind h s = some (evs, ind2, rest) →
      run clockf (junk :: (packHeader h ++ s)) ind =
        (Ev.unexpectedByte junk :: (evs ++ (run clockf rest ind2).1),
         (run clockf rest ind2).2)) := by
  refine ⟨run_desync, run_sync2_fail, run_sync3_fail, ?_⟩
  intro clockf junk h s ind evs ind2 rest hjunk hv hs hd
  rw [run_desync clockf junk (packHeader h ++ s) ind hjunk,
    run_lock clockf h s ind hv hs hd]

/-- Witness for C2 (amended): junk byte 0 before a concrete UNLOGALL
acknowledgement frame; the scanner logs one desync event and delivers the
decoded order. -/
theorem C2_resync_amended_witness :
    run (fun _ => 0)
        (0 :: (packHeader (create_header 38 6 192) ++ (frameC2body ++ [9, 9, 9, 9]))) 1 =
      (Ev.unexpectedByte 0 ::
        ([Ev.infoResponse Tag.UNLOGALL [79, 75],
          Ev.putOrder Tag.UNLOGALL ⟨1, [79, 75], fromLE4l [9, 9, 9, 9]⟩]
          ++ (run (fun _ => 0) [] 1).1),
       (run (fun _ => 0) [] 1).2) :=
  C2_resync_amended.2.2.2 (fun _ => 0) 0 (create_header 38 6 192)
    (frameC2body ++ [9, 9, 9, 9]) 1
    [Ev.infoResponse Tag.UNLOGALL [79, 75],
     Ev.putOrder Tag.UNLOGALL ⟨1, [79, 75], fromLE4l [9, 9, 9, 9]⟩] 1 []
    (by decide) (by decide) (by decide) (by decide)

/-- C2 counterexample to the claim as stated. The claim's "in particular" part
quantifies over every junk byte: for the junk byte 0xAA in front of the
well-formed frame `frameC2` (28-byte header, body, correct trailing CRC), the
frame's own first sync byte is consumed as a failed second-sync-byte candidate
and never re-examined, so the scanner delivers nothing at all — the second
conjunct shows the same frame without the junk byte does deliver its order. -/
theorem C2_counterexample :
    (run (fun _ => 0) (0xAA :: frameC2) 1).1.filter Ev.isDelivery = []
    ∧ (run (fun _ => 0) frameC2 1).1.filter Ev.isDelivery ≠ [] := by
  constructor
  · decide
  · decide

/-- Evaluation of the order-shape reads on a stream laid out as body bytes, four
CRC bytes, and the rest of the stream. -/
lemma readOrder_eval {L : Nat} {body c rest : List Nat}
    (hb : body.length = 4 + (L - 4)) (hc : c.length = 4) :
    readOrder L (body ++ (c ++ rest)) =
      some (⟨fromLE4l (body.take 4), body.drop 4, fromLE4l c⟩, rest) := by
  unfold readOrder
  rw [if_pos (by simp only [List.length_append]; omega)]
  have h1 : (body ++ (c ++ rest)).take 4 = body.take 4 :=
    List.take_append_of_le_length (by omega)
  have h2 : (body ++ (c ++ rest)).drop 4 = body.drop 4 ++ (c ++ rest) :=
    List.drop_append_of_le_length (by omega)
  have h3 : (body.drop 4).length = L - 4 := by
    simp only [List.length_drop]; omega
  rw [h1, h2, List.take_left' h3, List.drop_left' h3, List.take_left' hc,
    List.drop_left' hc]

/-- Both order events of an acknowledgement branch are independent of the four
trailing CRC bytes, up to the stored crc32 field. -/
lemma orderBranch_erase {t : Tag} {L ind : Nat} {body c1 c2 rest : List Nat}
    (hb : body.length = 4 + (L - 4)) (h1 : c1.length = 4) (h2 : c2.length = 4) :
    (orderBranch t L ind (body ++ (c1 ++ rest))).map
        (fun o => (o.1.map evEraseCrc, o.2.1))
      = (orderBranch t L ind (body ++ (c2 ++ rest))).map
        (fun o => (o.1.map evEraseCrc, o.2.1)) := by
  unfold orderBranch
  rw [readOrder_eval hb h1, readOrder_eval hb h2]
  simp [evEraseCrc]

/-- C7. The incoming trailing CRC is never validated: for any header and any two
streams that agree on the consumed body bytes and differ only in the four
trailing CRC bytes, the dispatcher produces the same outcome — the same events
up to the stored crc32 field and the same Indice counter — and it never
rejects a frame because of the CRC value (in particular one side blocks or
fails exactly when the other does, since the mapped options are equal). -/
theorem C7_crc_never_validated :
    ∀ (clockf : Nat → Nat) (ind : Nat) (h : Header) (body c1 c2 rest : List Nat),
      body.length = bodyLenFor h → c1.length = 4 → c2.length = 4 →
      (dispatch clockf ind h (body ++ (c1 ++ rest))).map
          (fun o => (o.1.map evEraseCrc, o.2.1))
        = (dispatch clockf ind h (body ++ (c2 ++ rest))).map
          (fun o => (o.1.map evEraseCrc, o.2.1)) := by
  intro clockf ind h body c1 c2 rest hb h1 h2
  by_cases m1 : h.messageID = 1
  · rw [bodyLenFor, if_pos (Or.inl m1)] at hb
    simp only [dispatch, if_pos m1]
    exact orderBranch_erase hb h1 h2
  · by_cases m38 : h.messageID = 38
    · rw [bodyLenFor, if_pos (Or.inr (Or.inl m38))] at hb
      simp only [dispatch, if_neg m1, if_pos m38]
      exact orderBranch_erase hb h1 h2
    · by_cases m4 : h.messageID = 4
      · rw [bodyLenFor, if_pos (Or.inr (Or.inr (Or.inl m4)))] at hb
        simp only [dispatch, if_neg m1, if_neg m38, if_pos m4]
        exact orderBranch_erase hb h1 h2
      · by_cases m258 : h.messageID = 258
        · by_cases mt : h.messageType = 130
          · rw [bodyLenFor,
              if_pos (Or.inr (Or.inr (Or.inr (Or.inl ⟨m258, mt⟩))))] at hb
            simp only [dispatch, if_neg m1, if_neg m38, if_neg m4, if_pos m258,
              if_pos mt]
            exact orderBranch_erase hb h1 h2
          · have hnot : ¬(h.messageID = 1 ∨ h.messageID = 38 ∨ h.messageID = 4 ∨
                (h.messageID = 258 ∧ h.messageType = 130) ∨ h.messageID = 18 ∨
                h.messageID = 19 ∨ h.messageID = 652) := by
              rintro (hx | hx | hx | hxy | hx | hx | hx) <;>
                first
                  | exact m1 hx
                  | exact m38 hx
                  | exact m4 hx
                  | exact mt hxy.2
                  | omega
            rw [bodyLenFor, if_neg hnot, if_pos m258] at hb
            simp only [dispatch, if_neg m1, if_neg m38, if_neg m4, if_pos m258,
              if_neg mt]
            have hc1 : 8 ≤ (body ++ (c1 ++ rest)).length := by
              simp only [List.length_append]; omega
            have hc2 : 8 ≤ (body ++ (c2 ++ rest)).length := by
              simp only [List.length_append]; omega
            rw [if_pos hc1, if_pos hc2]
            have t1 : (body ++ (c1 ++ rest)).take 4 = body.take 4 :=
              List.take_append_of_le_length (by omega)
            have t2 : (body ++ (c2 ++ rest)).take 4 = body.take 4 :=
              List.take_append_of_le_length (by omega)
            simp [t1, t2, evEraseCrc]
        · by_cases m18 : h.messageID = 18
          · rw [bodyLenFor,
              if_pos (Or.inr (Or.inr (Or.inr (Or.inr (Or.inl m18)))))] at hb
            simp only [dispatch, if_neg m1, if_neg m38, if_neg m4, if_neg m258,
              if_pos m18]
            exact orderBranch_erase hb h1 h2
          · by_cases m19 : h.messageID = 19
            · rw [bodyLenFor, if_pos (Or.inr (Or.inr (Or.inr (Or.inr
                (Or.inr (Or.inl m19))))))] at hb
              simp only [dispatch, if_neg m1, if_neg m38, if_neg m4, if_neg m258,
                if_neg m18, if_pos m19]
              exact orderBranch_erase hb h1 h2
            · by_cases m652 : h.messageID = 652
              · rw [bodyLenFor, if_pos (Or.inr (Or.inr (Or.inr (Or.inr
                  (Or.inr (Or.inr m652))))))] at hb
                simp only [dispatch, if_neg m1, if_neg m38, if_neg m4,
                  if_neg m258, if_neg m18, if_neg m19, if_pos m652]
                exact orderBranch_erase hb h1 h2
              · have hnot : ¬(h.messageID = 1 ∨ h.messageID = 38 ∨
                    h.messageID = 4 ∨
                    (h.messageID = 258 ∧ h.messageType = 130) ∨
                    h.messageID = 18 ∨ h.messageID = 19 ∨
                    h.messageID = 652) := by
                  rintro (hx | hx | hx | hxy | hx | hx | hx) <;>
                    first
                      | exact m1 hx
                      | exact m38 hx
                      | exact m4 hx
                      | exact m258 hxy.1
                      | exact m18 hx
                      | exact m19 hx
                      | exact m652 hx
                by_cases m241 : h.messageID = 241
                · rw [bodyLenFor, if_neg hnot, if_neg m258, if_pos m241] at hb
                  simp only [dispatch, if_neg m1, if_neg m38, if_neg m4,
                    if_neg m258, if_neg m18, if_neg m19, if_neg m652,
                    if_pos m241]
                  by_cases h112 : 112 ≤ h.messageLength
                  · have hcnd1 : 112 ≤ h.messageLength ∧
                        h.messageLength + 4 ≤ (body ++ (c1 ++ rest)).length := by
                      simp only [List.length_append]; omega
                    have hcnd2 : 112 ≤ h.messageLength ∧
                        h.messageLength + 4 ≤ (body ++ (c2 ++ rest)).length := by
                      simp only [List.length_append]; omega
                    rw [if_pos hcnd1, if_pos hcnd2]
                    have tk1 : (body ++ (c1 ++ rest)).take h.messageLength = body :=
                      List.take_left' hb
                    have tk2 : (body ++ (c2 ++ rest)).take h.messageLength = body :=
                      List.take_left' hb
                    have dr1 : (body ++ (c1 ++ rest)).drop h.messageLength =
                        c1 ++ rest := List.drop_left' hb
                    have dr2 : (body ++ (c2 ++ rest)).drop h.messageLength =
                        c2 ++ rest := List.drop_left' hb
                    rw [tk1, tk2, dr1, dr2]
                    have ht1 : (c1 ++ rest).take 4 = c1 := List.take_left' h1
                    have ht2 : (c2 ++ rest).take 4 = c2 := List.take_left' h2
                    rw [ht1, ht2]
                    simp [evEraseCrc, decodeBestXYZ]
                  · have hcnd1 : ¬(112 ≤ h.messageLength ∧
                        h.messageLength + 4 ≤ (body ++ (c1 ++ rest)).length) := by
                      intro hcon; exact h112 hcon.1
                    have hcnd2 : ¬(112 ≤ h.messageLength ∧
                        h.messageLength + 4 ≤ (body ++ (c2 ++ rest)).length) := by
                      intro hcon; exact h112 hcon.1
                    rw [if_neg hcnd1, if_neg hcnd2]
                · simp only [dispatch, if_neg m1, if_neg m38, if_neg m4,
                    if_neg m258, if_neg m18, if_neg m19, if_neg m652,
                    if_neg m241]
                  simp

/-- Witness for C7: a LOG-shaped UNLOGALL acknowledgement with two different CRC
trailers produces the same erased outcome. -/
theorem C7_crc_never_validated_witness :
    (dispatch (fun _ => 0) 1 (create_header 38 6 192)
        (frameC2body ++ ([1, 2, 3, 4] ++ []))).map
        (fun o => (o.1.map evEraseCrc, o.2.1))
      = (dispatch (fun _ => 0) 1 (create_header 38 6 192)
        (frameC2body ++ ([5, 6, 7, 8] ++ []))).map
        (fun o => (o.1.map evEraseCrc, o.2.1)) :=
  C7_crc_never_validated (fun _ => 0) 1 (create_header 38 6 192) frameC2body
    [1, 2, 3, 4] [5, 6, 7, 8] [] (by decide) (by decide) (by decide)

lemma teleData_append (l1 l2 : List Ev) :
    teleData (l1 ++ l2) = teleData l1 ++ teleData l2 := by
  simp [teleData]

/-- Fuel-indexed reader-loop invariant: starting from Indice `ind`, the
telemetry records delivered by a run carry the consecutive Indices
`ind, ind+1, ...` paired with the clock values sampled at those Indices, and
the final Indice is the start plus the number of deliveries. -/
lemma runF_tele (clockf : Nat → Nat) :
    ∀ (fuel : Nat) (s : List Nat) (ind : Nat),
      ∃ k, (runF clockf fuel s ind).2 = ind + k ∧
        teleData (runF clockf fuel s ind).1 =
          (List.range' ind k).map (fun i => (i, clockf i)) := by
  intro fuel
  induction fuel with
  | zero =>
    intro s ind
    exact ⟨0, rfl, by simp [runF, teleData]⟩
  | succ fuel ih =>
    intro s ind
    cases s with
    | nil => exact ⟨0, rfl, by simp [runF, teleData]⟩
    | cons b r =>
      by_cases hb : b = 0xAA
      · subst hb
        cases r with
        | nil => exact ⟨0, rfl, by simp [runF, teleData]⟩
        | cons b1 r1 =>
          by_cases hb1 : b1 = 0x44
          · subst hb1
            cases r1 with
            | nil => exact ⟨0, rfl, by simp [runF, teleData]⟩
            | cons b2 r2 =>
              by_cases hb2 : b2 = 0x12
              · subst hb2
                by_cases h25 : 25 ≤ r2.length
                · cases hdisp : dispatch clockf ind
                      (unpackHeader25 0xAA 0x44 0x12 (r2.take 25))
                      (r2.drop 25) with
                  | none =>
                    exact ⟨0, by simp [runF, h25, hdisp],
                      by simp [runF, h25, hdisp, teleData]⟩
                  | some out =>
                    obtain ⟨evs, ind2, rest⟩ := out
                    obtain ⟨k2, hk2, ht2⟩ := ih rest ind2
                    have hrun : runF clockf (fuel + 1)
                        (0xAA :: 0x44 :: 0x12 :: r2) ind =
                        (evs ++ (runF clockf fuel rest ind2).1,
                         (runF clockf fuel rest ind2).2) := by
                      simp [runF, h25, hdisp]
                    rcases (dispatch_spec hdisp).2 with ⟨hte, hind⟩ | ⟨hte, hind⟩
                    · subst hind
                      refine ⟨k2, ?_, ?_⟩
                      · rw [hrun]; exact hk2
                      · rw [hrun, teleData_append, hte, ht2]
                        simp
                    · subst hind
                      refine ⟨k2 + 1, ?_, ?_⟩
                      · rw [hrun, hk2]; omega
                      · rw [hrun, teleData_append, hte, ht2]
                        have hr : List.range' ind (k2 + 1) =
                            ind :: List.range' (ind + 1) k2 := rfl
                        rw [hr]
                        simp
                · exact ⟨0, by simp [runF, h25], by simp [runF, h25, teleData]⟩
              · obtain ⟨k, hk, ht⟩ := ih r2 ind
                have hrun : runF clockf (fuel + 1)
                    (0xAA :: 0x44 :: b2 :: r2) ind =
                    runF clockf fuel r2 ind := by simp [runF, hb2]
                exact ⟨k, by rw [hrun]; exact hk, by rw [hrun]; exact ht⟩
          · obtain ⟨k, hk, ht⟩ := ih r1 ind
            have hrun : runF clockf (fuel + 1) (0xAA :: b1 :: r1) ind =
                runF clockf fuel r1 ind := by simp [runF, hb1]
            exact ⟨k, by rw [hrun]; exact hk, by rw [hrun]; exact ht⟩
      · obtain ⟨k, hk, ht⟩ := ih r ind
        have hrun : runF clockf (fuel + 1) (b :: r) ind =
            (Ev.unexpectedByte b :: (runF clockf fuel r ind).1,
             (runF clockf fuel r ind).2) := by simp [runF, hb]
        refine ⟨k, by rw [hrun]; exact hk, ?_⟩
        rw [hrun]
        rw [show teleData (Ev.unexpectedByte b :: (runF clockf fuel r ind).1) =
          teleData (runF clockf fuel r ind).1 from by simp [teleData, Ev.teleDatum]]
        exact ht

/-- The elements of `range' s n` are pairwise increasing. -/
lemma pairwise_lt_range1 : ∀ (n s : Nat),
    List.Pairwise (· < ·) (List.range' s n) := by
  intro n
  induction n with
  | zero => intro s; simp
  | succ n ih =>
    intro s
    rw [show List.range' s (n + 1) = s :: List.range' (s + 1) n from rfl]
    refine List.Pairwise.cons ?_ (ih (s + 1))
    intro b hb
    obtain ⟨i, _, rfl⟩ := List.mem_range'.mp hb
    omega

/-- C8. For every run of the reader loop from the initial Indice 1 and any
capture clock, the sequence numbers attached to successively delivered
telemetry records are exactly 1, 2, ..., k (they start at 1 and increase by
exactly 1 per record), and when the capture clock is monotone the capture
timestamps are non-decreasing. Every delivery is the non-blocking
`put_nowait` push modelled by the `putTelemetryNowait` event, the only
telemetry delivery the reader loop performs. -/
theorem C8_telemetry_sequence :
    ∀ (clockf : Nat → Nat) (s : List Nat),
      teleIndices (run clockf s 1).1 =
        List.range' 1 (teleIndices (run clockf s 1).1).length
      ∧ (Monotone clockf →
          List.Pairwise (· ≤ ·) (teleTimes (run clockf s 1).1)) := by
  intro clockf s
  obtain ⟨k, hk, ht⟩ := runF_tele clockf s.length s 1
  have hind : teleIndices (run clockf s 1).1 = List.range' 1 k := by
    rw [teleIndices, run, ht, List.map_map]
    simp [Function.comp_def]
  constructor
  · rw [hind]
    simp
  · intro hmono
    have htime : teleTimes (run clockf s 1).1 =
        (List.range' 1 k).map clockf := by
      rw [teleTimes, run, ht, List.map_map]
      simp [Function.comp_def]
    rw [htime]
    exact (pairwise_lt_range1 k 1).map clockf
      (fun a b hab => hmono (Nat.le_of_lt hab))

/-- Witness for C8: two consecutive BESTXYZ frames with the identity clock
deliver Indices 1 and 2 with non-decreasing times. -/
theorem C8_telemetry_sequence_witness :
    teleIndices (run id (teleFrame ++ teleFrame) 1).1 = [1, 2]
    ∧ List.Pairwise (· ≤ ·) (teleTimes (run id (teleFrame ++ teleFrame) 1).1) :=
  ⟨by decide, (C8_telemetry_sequence id (teleFrame ++ teleFrame)).2 monotone_id⟩

end Novatel
